import Mathlib

/-!
Shallow embedding of the AllVideoSaverTemp backend (src/AllVideoSaverTemp/app.py).

The repository is a small Flask application with two JSON endpoints,
POST /api/fetch-info and POST /api/download, plus a handful of pure helper
functions.  We embed the pure helpers directly and the two request handlers
as total Lean functions.  The call into the external extraction library
(yt_dlp.YoutubeDL(...).extract_info) is modelled as an oracle parameter of
type `... → Except String ...`: a Python exception raised by the library is
the `Except.error` case, carrying the stringified exception message.

Python dictionaries appearing in the code (the request JSON body, the
extraction metadata, the ydl options) are embedded as structures whose
optional keys are `Option` fields.
-/

namespace AllVideoSaver

/-- Configuration constant DOWNLOAD_FOLDER from app.py line 23. -/
def DOWNLOAD_FOLDER : String := "D:\\AllVideoSaverTemp"

/-- Configuration constant FFMPEG_PATH from app.py line 26. -/
def FFMPEG_PATH : String := "D:\\ffmpeg-8.0"

/-- Model of os.path.join on the Windows host the configuration targets. -/
def joinPath (dir file : String) : String := dir ++ "\\" ++ file

/-- The nine characters the sanitizer replaces: the Python string <>:"/\|?* . -/
def invalidChars : List Char := ['<', '>', ':', '"', '/', '\\', '|', '?', '*']

/-- One iteration of the loop body `filename = filename.replace(char, underscore)`:
str.replace with a single-character pattern maps every occurrence of that
character to the replacement. -/
def replaceChar (c : Char) (l : List Char) : List Char :=
  l.map (fun x => if x = c then '_' else x)

/-- Embedding of sanitize_filename (app.py lines 32 to 36): fold the
single-character replacements over the nine invalid characters, then take the
first 100 characters (the slice filename[:100]). -/
def sanitize_filename (filename : String) : String :=
  String.mk ((invalidChars.foldl (fun acc c => replaceChar c acc) filename.data).take 100)

/-- Python's format spec 02d: decimal rendering left-padded with zeros to
width 2 (the arguments here are always below 60). -/
def pad2 (n : Nat) : String := if n < 10 then "0" ++ toString n else toString n

/-- Embedding of format_duration (app.py lines 38 to 44).  The Python
parameter may be absent/None or an integer; `not seconds` is true exactly on
None and 0 for these inputs, hence the `Option Nat` domain. -/
def format_duration (seconds : Option Nat) : String :=
  match seconds with
  | none => "Unknown"
  | some s =>
    if s = 0 then "Unknown"
    else
      let hours := s / 3600
      let minutes := (s % 3600) / 60
      let secs := s % 60
      if hours ≠ 0 then toString hours ++ ":" ++ pad2 minutes ++ ":" ++ pad2 secs
      else toString minutes ++ ":" ++ pad2 secs

/-- Decides whether the pattern occurs at the head of the haystack. -/
def matchesAt : List Char → List Char → Bool
  | [], _ => true
  | _ :: _, [] => false
  | a :: as, b :: bs => a = b && matchesAt as bs

/-- Decides the Python test `needle in haystack` on strings (substring
containment). -/
def containsSub (hay needle : List Char) : Bool :=
  match hay with
  | [] => matchesAt needle []
  | _ :: t => matchesAt needle hay || containsSub t needle

/-- ASCII lower-casing of a string, modelling Python str.lower on the
extractor identifiers that occur here. -/
def lowerStr (s : String) : String := String.mk (s.data.map Char.toLower)

/-- Embedding of detect_platform (app.py lines 46 to 58). -/
def detect_platform (extractor : String) : String :=
  let e := lowerStr extractor
  if containsSub e.data "tiktok".data then "tiktok"
  else if containsSub e.data "youtube".data then "youtube"
  else if containsSub e.data "facebook".data then "facebook"
  else if containsSub e.data "instagram".data then "instagram"
  else if containsSub e.data "twitter".data then "twitter"
  else e

/-- One entry of the metadata `formats` list as the code reads it:
fmt.get('height'), fmt.get('format_note', ''), fmt.get('ext', ''),
fmt.get('filesize'). Absent keys are `none`. -/
structure FormatIn where
  height : Option Nat
  format_note : Option String
  ext : Option String
  filesize : Option Nat
deriving Repr, DecidableEq

/-- One entry of the list built by get_available_formats. -/
structure FormatEntry where
  quality : String
  format_note : String
  ext : String
  filesize : Option Nat
deriving Repr, DecidableEq

/-- The extraction metadata dictionary as the fetch-info handler reads it:
info.get('title', ...), info.get('duration', 0), info.get('thumbnail', ''),
info.get('extractor', ''), and the optional 'formats' list. -/
structure ExtractInfo where
  title : Option String
  duration : Option Nat
  thumbnail : Option String
  extractor : Option String
  formats : Option (List FormatIn)
deriving Repr, DecidableEq

/-- The first loop of get_available_formats (app.py lines 62 to 70): keep the
entries whose 'height' key is present and truthy (a height of 0 is falsy in
Python and is skipped), and build the entry dictionary with quality label
str(height) followed by the letter p. -/
def collectFormats : List FormatIn → List FormatEntry
  | [] => []
  | f :: rest =>
    match f.height with
    | some h =>
      if h ≠ 0 then
        { quality := toString h ++ "p",
          format_note := f.format_note.getD "",
          ext := f.ext.getD "",
          filesize := f.filesize } :: collectFormats rest
      else collectFormats rest
    | none => collectFormats rest

/-- The second loop of get_available_formats (app.py lines 71 to 76): drop
every entry whose quality label was already seen, keeping first occurrences. -/
def dedupFormats (seen : List String) : List FormatEntry → List FormatEntry
  | [] => []
  | f :: rest =>
    if f.quality ∈ seen then dedupFormats seen rest
    else f :: dedupFormats (f.quality :: seen) rest

/-- The sort key of app.py line 77, int(x['quality'].replace('p', '')):
remove every letter p from the quality label and read the remaining decimal
digits as a number. -/
def sortKey (f : FormatEntry) : Nat :=
  (f.quality.data.filter (fun c => c ≠ 'p')).foldl
    (fun n c => n * 10 + (c.toNat - '0'.toNat)) 0

/-- The comparison realised by sorted(..., key, reverse=True): descending by
the numeric sort key. -/
def formatGE (a b : FormatEntry) : Prop := sortKey b ≤ sortKey a

instance : DecidableRel formatGE := fun a b => Nat.decLe (sortKey b) (sortKey a)

instance : IsTotal FormatEntry formatGE :=
  ⟨fun a b => (Nat.le_total (sortKey a) (sortKey b)).symm⟩

instance : IsTrans FormatEntry formatGE :=
  ⟨fun _ _ _ hab hbc => Nat.le_trans hbc hab⟩

/-- Embedding of get_available_formats (app.py lines 60 to 77).  Python's
sorted is a stable sort; a stable insertion sort over the same total
preorder produces the identical list. -/
def get_available_formats (info : ExtractInfo) : List FormatEntry :=
  List.insertionSort formatGE (dedupFormats [] (collectFormats (info.formats.getD [])))

/-- Embedding of get_format_selector (app.py lines 79 to 88). -/
def get_format_selector (quality : String) : String :=
  if quality = "audio" then "bestaudio/best"
  else if quality = "360" then "best[height<=360]/best"
  else if quality = "720" then "best[height<=720]/best"
  else if quality = "1080" then "best[height<=1080]/best"
  else "bestvideo+bestaudio/best"

/-- ASCII whitespace predicate used to model Python str.strip. -/
def isSpaceChar (c : Char) : Bool :=
  c = ' ' || c = '\t' || c = '\n' || c = '\r' || c = '\x0b' || c = '\x0c'

/-- Model of Python str.strip() with no argument: remove leading and trailing
whitespace. -/
def pyStrip (s : String) : String :=
  String.mk (((s.data.dropWhile isSpaceChar).reverse.dropWhile isSpaceChar).reverse)

/-- Model of Python s.rsplit('.', 1)[0]: everything before the last dot, or
the whole string when it has no dot. -/
def beforeLastDotAux : List Char → Option (List Char)
  | [] => none
  | c :: cs =>
    match beforeLastDotAux cs with
    | some r => some (c :: r)
    | none => if c = '.' then some [] else none

/-- Everything of the string before its last dot (the whole string when no
dot occurs), as computed by rsplit('.', 1)[0]. -/
def beforeLastDot (s : String) : String :=
  match beforeLastDotAux s.data with
  | some r => String.mk r
  | none => s

/-- One postprocessor dictionary of the ydl options. -/
structure PostProcessor where
  key : String
  preferredcodec : String
  preferredquality : String
deriving Repr, DecidableEq

/-- The ydl_opts dictionary built by download_video (app.py lines 159 to
170); an absent 'postprocessors' key is the empty list. -/
structure YdlOpts where
  outtmpl : String
  format : String
  ffmpeg_location : String
  postprocessors : List PostProcessor
deriving Repr, DecidableEq

/-- The ydl options of the download handler for a given quality token and
temp filepath: outtmpl is the filepath plus the extension template, format is
the selector expression, and for quality audio the FFmpegExtractAudio
postprocessor is added (app.py lines 159 to 170). -/
def downloadOpts (quality filepath : String) : YdlOpts :=
  { outtmpl := filepath ++ ".%(ext)s",
    format := get_format_selector quality,
    ffmpeg_location := FFMPEG_PATH,
    postprocessors :=
      if quality = "audio" then
        [{ key := "FFmpegExtractAudio", preferredcodec := "mp3", preferredquality := "192" }]
      else [] }

/-- The JSON request body as the handlers read it: data['url'] and
data.get('quality', ...).  A request whose body is not JSON gives
`none` for the whole body (request.get_json() returns None); an absent key
is a `none` field. -/
structure ReqBody where
  url : Option String
  quality : Option String
deriving Repr, DecidableEq

/-- The VideoInfo dictionary returned by fetch-info (app.py lines 133-139). -/
structure VideoInfo where
  title : String
  duration : String
  thumbnail : String
  platform : String
  formats : List FormatEntry
deriving Repr, DecidableEq

/-- What a handler sends back: a JSON error object with key 'error', the
VideoInfo JSON, or a file attachment (send_file with as_attachment=True,
download_name and mimetype). -/
inductive Payload where
  | jsonError (msg : String)
  | jsonInfo (info : VideoInfo)
  | fileAttachment (path : String) (downloadName : String) (mimetype : String)
deriving Repr, DecidableEq

/-- An HTTP response of either handler: status code, payload, and the cleanup
the handler scheduled on its way out (the delayed_cleanup call records the
file path and the delay in seconds; `none` when no cleanup was scheduled). -/
structure Response where
  status : Nat
  payload : Payload
  cleanup : Option (String × Nat)
deriving Repr, DecidableEq

/-- Whether a payload is a JSON object carrying an 'error' key. -/
def Payload.isError : Payload → Bool
  | .jsonError _ => true
  | _ => false

/-- Embedding of the scheduling side of delayed_cleanup (app.py lines 90 to
99): the handler hands the file path and the fixed delay to a background
thread; we record that schedule as data. -/
def delayed_cleanup (path : String) (delay : Nat) : String × Nat := (path, delay)

/-- The filesystem the background cleanup thread interacts with:
os.path.exists and os.remove, the latter fallible (an error is a raised
OSError with the given message). -/
structure CleanupEnv where
  pathExists : String → Bool
  remove : String → Except String Unit

/-- The body of the try block inside _cleanup (app.py lines 95 to 96):
check existence, then remove; a failure propagates as an exception. -/
def cleanupAttempt (env : CleanupEnv) (path : String) : Except String Unit :=
  if env.pathExists path then env.remove path else Except.ok ()

/-- The warning text logged on a deletion failure (app.py line 98). -/
def cleanupWarning (path msg : String) : String :=
  "Could not delete file " ++ path ++ ": " ++ msg

/-- Embedding of the _cleanup thread body after its sleep (app.py lines 92 to
98): run the deletion attempt; the except clause turns any exception into a
single warning log entry, and nothing is re-raised or retried.  The return
value is the list of emitted warning logs. -/
def cleanupRun (env : CleanupEnv) (path : String) : List String :=
  match cleanupAttempt env path with
  | Except.ok _ => []
  | Except.error e => [cleanupWarning path e]

/-- Embedding of fetch_video_info (app.py lines 119 to 144).  The oracle
`extract` models ydl.extract_info(url, download=False): it returns the
metadata dictionary or the stringified message of the exception it raised.
A body that is None or the empty dictionary is falsy, and the empty
dictionary also lacks the 'url' key, so `none` for the body or `none` for
the url field both take the 'No URL provided' branch. -/
def fetch_video_info (extract : String → Except String ExtractInfo)
    (body : Option ReqBody) : Response :=
  match body with
  | none => { status := 400, payload := Payload.jsonError "No URL provided", cleanup := none }
  | some data =>
    match data.url with
    | none => { status := 400, payload := Payload.jsonError "No URL provided", cleanup := none }
    | some u =>
      let url := pyStrip u
      if url = "" then
        { status := 400, payload := Payload.jsonError "Empty URL provided", cleanup := none }
      else
        match extract url with
        | Except.error e =>
          { status := 500, payload := Payload.jsonError e, cleanup := none }
        | Except.ok info =>
          { status := 200,
            payload := Payload.jsonInfo
              { title := info.title.getD "Unknown Title",
                duration := format_duration (some (info.duration.getD 0)),
                thumbnail := info.thumbnail.getD "",
                platform := detect_platform (info.extractor.getD ""),
                formats := get_available_formats info },
            cleanup := none }

/-- What the download oracle yields on success: the metadata dictionary
(of which the handler reads info['title']) and ydl.prepare_filename(info). -/
structure DownloadResult where
  title : String
  preparedFilename : String
deriving Repr, DecidableEq

/-- Embedding of download_video (app.py lines 146 to 194).  The oracle
`extract` models the whole with-block interaction with yt_dlp for the given
ydl options: extract_info(url, download=True) followed by prepare_filename,
returning the title and the prepared file name, or the stringified message
of any exception raised inside the try block.  `uuidHex` is the
uuid.uuid4().hex token drawn for this request. -/
def download_video (extract : YdlOpts → String → Except String DownloadResult)
    (uuidHex : String) (body : Option ReqBody) : Response :=
  match body with
  | none => { status := 400, payload := Payload.jsonError "No URL provided", cleanup := none }
  | some data =>
    match data.url with
    | none => { status := 400, payload := Payload.jsonError "No URL provided", cleanup := none }
    | some u =>
      let url := pyStrip u
      let quality := data.quality.getD "720"
      if url = "" then
        { status := 400, payload := Payload.jsonError "Empty URL provided", cleanup := none }
      else
        let filename := "allvideosaver_" ++ uuidHex
        let filepath := joinPath DOWNLOAD_FOLDER filename
        let opts := downloadOpts quality filepath
        match extract opts url with
        | Except.error e =>
          { status := 500, payload := Payload.jsonError e, cleanup := none }
        | Except.ok info =>
          let downloaded_file :=
            if quality = "audio" then beforeLastDot info.preparedFilename ++ ".mp3"
            else info.preparedFilename
          let download_name :=
            if quality = "audio" then sanitize_filename info.title ++ ".mp3"
            else sanitize_filename info.title ++ "_" ++ quality ++ "p.mp4"
          { status := 200,
            payload := Payload.fileAttachment downloaded_file download_name
              (if quality ≠ "audio" then "video/mp4" else "audio/mpeg"),
            cleanup := some (delayed_cleanup downloaded_file 60) }

/-- The mimetype of a file-attachment payload. -/
def Payload.mimeOf : Payload → Option String
  | .fileAttachment _ _ m => some m
  | _ => none

/-- The download_name of a file-attachment payload. -/
def Payload.nameOf : Payload → Option String
  | .fileAttachment _ n _ => some n
  | _ => none

/-- The served file path of a file-attachment payload. -/
def Payload.pathOf : Payload → Option String
  | .fileAttachment p _ _ => some p
  | _ => none

/-- The metadata of the spec's format-lister test case: heights 144, 720,
720, 1080, the two 720 entries bearing different notes. -/
def exampleInfo : ExtractInfo :=
  { title := some "t", duration := some 10, thumbnail := none, extractor := some "youtube",
    formats := some
      [ { height := some 144, format_note := some "low", ext := some "mp4", filesize := some 1 },
        { height := some 720, format_note := some "first", ext := some "mp4", filesize := some 2 },
        { height := some 720, format_note := some "second", ext := some "webm", filesize := some 3 },
        { height := some 1080, format_note := some "hd", ext := some "mp4", filesize := none } ] }

/-- A metadata dictionary with no formats key at all. -/
def noFormatsInfo : ExtractInfo :=
  { title := none, duration := none, thumbnail := none, extractor := none, formats := none }

/-! Helper lemmas about the sanitizer's replacement fold. -/

/-- The replacement fold never changes the length of the character list. -/
theorem length_foldl_replaceChar (cs : List Char) (l : List Char) :
    (cs.foldl (fun acc c => replaceChar c acc) l).length = l.length := by
  induction cs generalizing l with
  | nil => rfl
  | cons c cs ih =>
    simp only [List.foldl_cons]
    rw [ih]
    simp [replaceChar]

/-- Every character surviving the replacement fold is either the underscore
or an original character that matched none of the folded characters. -/
theorem mem_foldl_replaceChar (cs : List Char) (l : List Char) (x : Char)
    (hx : x ∈ cs.foldl (fun acc c => replaceChar c acc) l) :
    x = '_' ∨ (x ∈ l ∧ x ∉ cs) := by
  induction cs generalizing l with
  | nil => exact Or.inr ⟨hx, by simp⟩
  | cons c cs ih =>
    simp only [List.foldl_cons] at hx
    rcases ih (replaceChar c l) hx with h | ⟨hmem, hnot⟩
    · exact Or.inl h
    · rcases List.mem_map.1 hmem with ⟨y, hy, hxy⟩
      by_cases hyc : y = c
      · subst hyc
        simp only [if_pos rfl] at hxy
        exact Or.inl hxy.symm
      · simp only [if_neg hyc] at hxy
        subst hxy
        exact Or.inr ⟨hy, by simp [hyc, hnot]⟩

/-- Claim C6: the filename sanitizer replaces each occurrence of each of the
nine forbidden characters with an underscore and truncates to 100
characters, so the output has length min(input length, 100), contains none
of the forbidden characters, and a 150-character title yields exactly 100
characters. -/
theorem C6_sanitize_filename (s : String) :
    (sanitize_filename s).length = min s.length 100 ∧
    (∀ c, c ∈ (sanitize_filename s).data → c ∉ invalidChars) ∧
    (s.length = 150 → (sanitize_filename s).length = 100) := by
  have hlen : (sanitize_filename s).length = min s.length 100 := by
    show (((invalidChars.foldl (fun acc c => replaceChar c acc) s.data).take 100)).length
        = min s.length 100
    rw [List.length_take, length_foldl_replaceChar]
    exact Nat.min_comm _ _
  refine ⟨hlen, ?_, ?_⟩
  · intro c hc
    have hc' : c ∈ invalidChars.foldl (fun acc c => replaceChar c acc) s.data :=
      List.take_subset 100 _ hc
    rcases mem_foldl_replaceChar invalidChars s.data c hc' with h | ⟨_, hnot⟩
    · subst h
      decide
    · exact hnot
  · intro h150
    rw [hlen, h150]
    decide

set_option maxRecDepth 4000 in
/-- Concrete instance of C6: a 150-character title is cut to 100 characters,
and the angle bracket never survives sanitization. -/
theorem C6_sanitize_filename_witness :
    (sanitize_filename (String.mk (List.replicate 150 'a'))).length = 100 ∧
    '<' ∉ (sanitize_filename "a<b").data :=
  ⟨(C6_sanitize_filename (String.mk (List.replicate 150 'a'))).2.2 (by decide),
   fun h => (C6_sanitize_filename "a<b").2.1 '<' h (by decide)⟩

/-- Claim C4: the duration formatter returns Unknown on an absent or zero
seconds value; otherwise it computes hours, minutes and seconds by integer
division, omits the hour field when hours is zero, zero-pads the two-digit
fields, and maps 59 to 0:59 and 3661 to 1:01:01. -/
theorem C4_format_duration :
    format_duration none = "Unknown" ∧
    format_duration (some 0) = "Unknown" ∧
    (∀ s, s ≠ 0 → s / 3600 ≠ 0 →
      format_duration (some s) =
        toString (s / 3600) ++ ":" ++ pad2 ((s % 3600) / 60) ++ ":" ++ pad2 (s % 60)) ∧
    (∀ s, s ≠ 0 → s / 3600 = 0 →
      format_duration (some s) = toString ((s % 3600) / 60) ++ ":" ++ pad2 (s % 60)) ∧
    (∀ n, n < 10 → pad2 n = "0" ++ toString n) ∧
    (∀ n, ¬ n < 10 → pad2 n = toString n) ∧
    format_duration (some 59) = "0:59" ∧
    format_duration (some 3661) = "1:01:01" := by
  refine ⟨rfl, rfl, ?_, ?_, ?_, ?_, by decide, by decide⟩
  · intro s hs hh
    simp [format_duration, hs, hh]
  · intro s hs hh
    simp [format_duration, hs, hh]
  · intro n hn
    simp [pad2, hn]
  · intro n hn
    simp [pad2, hn]

/-- Concrete instance of C4: the two spec examples obtained from the general
branch descriptions. -/
theorem C4_format_duration_witness :
    format_duration (some 3661) =
      toString (3661 / 3600) ++ ":" ++ pad2 ((3661 % 3600) / 60) ++ ":" ++ pad2 (3661 % 60) ∧
    format_duration (some 59) = toString ((59 % 3600) / 60) ++ ":" ++ pad2 (59 % 60) :=
  ⟨C4_format_duration.2.2.1 3661 (by decide) (by decide),
   C4_format_duration.2.2.2.1 59 (by decide) (by decide)⟩

/-- Claim C5: the format selector is a pure total mapping: audio goes to the
best-audio expression, each of 360, 720, 1080 to a bounded-height expression
containing that height, and every other token (such as 2160) to the combined
best-video-plus-best-audio fallback. -/
theorem C5_get_format_selector :
    get_format_selector "audio" = "bestaudio/best" ∧
    get_format_selector "360" = "best[height<=360]/best" ∧
    get_format_selector "720" = "best[height<=720]/best" ∧
    get_format_selector "1080" = "best[height<=1080]/best" ∧
    (∃ a b, get_format_selector "360" = a ++ "360" ++ b) ∧
    (∃ a b, get_format_selector "720" = a ++ "720" ++ b) ∧
    (∃ a b, get_format_selector "1080" = a ++ "1080" ++ b) ∧
    get_format_selector "2160" = "bestvideo+bestaudio/best" ∧
    (∀ q, q ≠ "audio" → q ≠ "360" → q ≠ "720" → q ≠ "1080" →
      get_format_selector q = "bestvideo+bestaudio/best") := by
  refine ⟨rfl, rfl, rfl, rfl,
    ⟨"best[height<=", "]/best", by decide⟩,
    ⟨"best[height<=", "]/best", by decide⟩,
    ⟨"best[height<=", "]/best", by decide⟩, rfl, ?_⟩
  intro q h1 h2 h3 h4
  simp [get_format_selector, h1, h2, h3, h4]

/-- Concrete instance of C5: the unrecognized token 2160 falls through to
the combined fallback expression. -/
theorem C5_get_format_selector_witness :
    get_format_selector "2160" = "bestvideo+bestaudio/best" ∧
    get_format_selector "audio" = "bestaudio/best" :=
  ⟨C5_get_format_selector.2.2.2.2.2.2.2.2 "2160"
      (by decide) (by decide) (by decide) (by decide),
   C5_get_format_selector.1⟩

/-! Helper lemmas about the format-lister pipeline. -/

/-- Every entry the first loop produces comes from an input entry with a
present nonzero height, and carries that entry's fields with the quality
label built from the height. -/
theorem mem_collectFormats {e : FormatEntry} {l : List FormatIn}
    (he : e ∈ collectFormats l) :
    ∃ f ∈ l, ∃ h, f.height = some h ∧ h ≠ 0 ∧
      e = { quality := toString h ++ "p", format_note := f.format_note.getD "",
            ext := f.ext.getD "", filesize := f.filesize } := by
  induction l with
  | nil => cases he
  | cons f rest ih =>
    rcases hh : f.height with _ | h
    · rw [collectFormats, hh] at he
      rcases ih he with ⟨g, hg, w⟩
      exact ⟨g, List.mem_cons_of_mem f hg, w⟩
    · by_cases hz : h ≠ 0
      · simp only [collectFormats, hh, if_pos hz] at he
        rcases List.mem_cons.1 he with he | he
        · exact ⟨f, List.mem_cons_self f rest, h, hh, hz, he⟩
        · rcases ih he with ⟨g, hg, w⟩
          exact ⟨g, List.mem_cons_of_mem f hg, w⟩
      · simp only [collectFormats, hh, if_neg hz] at he
        rcases ih he with ⟨g, hg, w⟩
        exact ⟨g, List.mem_cons_of_mem f hg, w⟩

/-- The deduplication loop only ever keeps entries of its input list. -/
theorem dedupFormats_subset (seen : List String) (l : List FormatEntry) :
    ∀ e ∈ dedupFormats seen l, e ∈ l := by
  induction l generalizing seen with
  | nil => intro e he; cases he
  | cons f rest ih =>
    intro e he
    rw [dedupFormats] at he
    by_cases hs : f.quality ∈ seen
    · rw [if_pos hs] at he
      exact List.mem_cons_of_mem f (ih seen e he)
    · rw [if_neg hs] at he
      rcases List.mem_cons.1 he with he | he
      · exact he ▸ List.mem_cons_self f rest
      · exact List.mem_cons_of_mem f (ih (f.quality :: seen) e he)

/-- No quality label surviving the deduplication loop was in the seen set it
started from. -/
theorem dedupFormats_quality_notSeen (seen : List String) (l : List FormatEntry) :
    ∀ q ∈ (dedupFormats seen l).map FormatEntry.quality, q ∉ seen := by
  induction l generalizing seen with
  | nil => intro q hq; cases hq
  | cons f rest ih =>
    intro q hq
    rw [dedupFormats] at hq
    by_cases hs : f.quality ∈ seen
    · rw [if_pos hs] at hq
      exact ih seen q hq
    · rw [if_neg hs] at hq
      rcases List.mem_cons.1 hq with hq | hq
      · exact hq ▸ hs
      · intro hqseen
        exact ih (f.quality :: seen) q hq (List.mem_cons_of_mem _ hqseen)

/-- The quality labels surviving the deduplication loop are pairwise
distinct. -/
theorem dedupFormats_quality_nodup (seen : List String) (l : List FormatEntry) :
    ((dedupFormats seen l).map FormatEntry.quality).Nodup := by
  induction l generalizing seen with
  | nil => simp [dedupFormats]
  | cons f rest ih =>
    rw [dedupFormats]
    by_cases hs : f.quality ∈ seen
    · rw [if_pos hs]
      exact ih seen
    · rw [if_neg hs]
      rw [List.map_cons, List.nodup_cons]
      refine ⟨fun hmem => ?_, ih (f.quality :: seen)⟩
      exact dedupFormats_quality_notSeen (f.quality :: seen) rest
        f.quality hmem (List.mem_cons_self _ _)

/-- Claim C3: the format lister keeps only entries with a known (present,
nonzero) height, labels each kept entry with its height followed by p,
removes later entries whose quality label already occurred, and returns the
remainder sorted descending by the numeric sort key; a metadata dictionary
with no formats yields the empty list, and the spec's test case with heights
144, 720, 720, 1080 yields exactly the three entries 1080p, 720p, 144p with
the first-seen 720p entry retained. -/
theorem C3_get_available_formats (info : ExtractInfo) :
    (info.formats = none → get_available_formats info = []) ∧
    (∀ e ∈ get_available_formats info,
      ∃ f ∈ info.formats.getD [], ∃ h, f.height = some h ∧ h ≠ 0 ∧
        e = { quality := toString h ++ "p", format_note := f.format_note.getD "",
              ext := f.ext.getD "", filesize := f.filesize }) ∧
    ((get_available_formats info).map FormatEntry.quality).Nodup ∧
    List.Sorted formatGE (get_available_formats info) ∧
    get_available_formats exampleInfo =
      [ { quality := "1080p", format_note := "hd", ext := "mp4", filesize := none },
        { quality := "720p", format_note := "first", ext := "mp4", filesize := some 2 },
        { quality := "144p", format_note := "low", ext := "mp4", filesize := some 1 } ] := by
  refine ⟨?_, ?_, ?_, List.sorted_insertionSort formatGE _, by decide⟩
  · intro hnone
    simp [get_available_formats, hnone, collectFormats, dedupFormats]
  · intro e he
    have he' : e ∈ dedupFormats [] (collectFormats (info.formats.getD [])) :=
      ((List.perm_insertionSort formatGE _).mem_iff).1 he
    exact mem_collectFormats (dedupFormats_subset [] _ e he')
  · have hperm : List.Perm
        ((get_available_formats info).map FormatEntry.quality)
        ((dedupFormats [] (collectFormats (info.formats.getD []))).map FormatEntry.quality) :=
      (List.perm_insertionSort formatGE _).map FormatEntry.quality
    exact hperm.nodup_iff.2 (dedupFormats_quality_nodup [] _)

/-- Concrete instance of C3: the no-formats dictionary yields the empty
list, and the 1080p output entry of the spec's test case traces back to the
height-1080 input entry. -/
theorem C3_get_available_formats_witness :
    get_available_formats noFormatsInfo = [] ∧
    (∃ f ∈ exampleInfo.formats.getD [], ∃ h, f.height = some h ∧ h ≠ 0 ∧
      ({ quality := "1080p", format_note := "hd", ext := "mp4", filesize := none } : FormatEntry) =
        { quality := toString h ++ "p", format_note := f.format_note.getD "",
          ext := f.ext.getD "", filesize := f.filesize }) :=
  ⟨(C3_get_available_formats noFormatsInfo).1 rfl,
   (C3_get_available_formats exampleInfo).2.1
     { quality := "1080p", format_note := "hd", ext := "mp4", filesize := none }
     (by decide)⟩

/-! Helper lemmas about string concatenation. -/

/-- String concatenation is left-cancellative. -/
theorem string_append_left_cancel {a b c : String} (h : a ++ b = a ++ c) : b = c := by
  have hd : a.data ++ b.data = a.data ++ c.data := by
    rw [← String.data_append, ← String.data_append, h]
  exact String.ext (List.append_cancel_left hd)

/-- String concatenation is right-cancellative. -/
theorem string_append_right_cancel {a b c : String} (h : a ++ c = b ++ c) : a = b := by
  have hd : a.data ++ c.data = b.data ++ c.data := by
    rw [← String.data_append, ← String.data_append, h]
  exact String.ext (List.append_cancel_right hd)

/-- Claim C1: a POST to either endpoint whose JSON body is absent, lacks the
url key, or whose url is empty after stripping whitespace gets a 400
response with a JSON error body from both handlers, and the response is
independent of the extraction oracle, so the external library is never
invoked on such requests. -/
theorem C1_url_validation (body : Option ReqBody)
    (hbad : body = none ∨ ∃ d, body = some d ∧
      (d.url = none ∨ ∃ u, d.url = some u ∧ pyStrip u = "")) :
    ∀ (ex₁ ex₂ : String → Except String ExtractInfo)
      (dl₁ dl₂ : YdlOpts → String → Except String DownloadResult)
      (uuid₁ uuid₂ : String),
      (fetch_video_info ex₁ body).status = 400 ∧
      (fetch_video_info ex₁ body).payload.isError = true ∧
      (download_video dl₁ uuid₁ body).status = 400 ∧
      (download_video dl₁ uuid₁ body).payload.isError = true ∧
      fetch_video_info ex₁ body = fetch_video_info ex₂ body ∧
      download_video dl₁ uuid₁ body = download_video dl₂ uuid₂ body := by
  intro ex₁ ex₂ dl₁ dl₂ uuid₁ uuid₂
  rcases hbad with rfl | ⟨d, rfl, hurl⟩
  · exact ⟨rfl, rfl, rfl, rfl, rfl, rfl⟩
  · obtain ⟨uo, qo⟩ := d
    rcases hurl with h | ⟨u, hu, hstrip⟩
    · cases h
      exact ⟨rfl, rfl, rfl, rfl, rfl, rfl⟩
    · cases hu
      simp [fetch_video_info, download_video, hstrip, Payload.isError]

/-- Concrete instance of C1: a body whose url is a pure-whitespace string is
rejected with 400 by both handlers without consulting the oracles. -/
theorem C1_url_validation_witness :
    (fetch_video_info (fun _ => Except.error "a")
        (some { url := some "   ", quality := none })).status = 400 ∧
    (fetch_video_info (fun _ => Except.error "a")
        (some { url := some "   ", quality := none })).payload.isError = true ∧
    (download_video (fun _ _ => Except.error "b") "u1"
        (some { url := some "   ", quality := none })).status = 400 ∧
    (download_video (fun _ _ => Except.error "b") "u1"
        (some { url := some "   ", quality := none })).payload.isError = true ∧
    fetch_video_info (fun _ => Except.error "a")
        (some { url := some "   ", quality := none }) =
      fetch_video_info (fun _ => Except.error "other")
        (some { url := some "   ", quality := none }) ∧
    download_video (fun _ _ => Except.error "b") "u1"
        (some { url := some "   ", quality := none }) =
      download_video (fun _ _ => Except.error "other") "u2"
        (some { url := some "   ", quality := none }) :=
  C1_url_validation (some { url := some "   ", quality := none })
    (Or.inr ⟨{ url := some "   ", quality := none }, rfl,
      Or.inr ⟨"   ", rfl, by decide⟩⟩)
    (fun _ => Except.error "a") (fun _ => Except.error "other")
    (fun _ _ => Except.error "b") (fun _ _ => Except.error "other") "u1" "u2"

/-- Claim C2: with a valid non-empty URL, a failure of the extraction oracle
(the stringified exception message) is caught and both handlers respond 500
with a JSON body whose error field is that message; the handlers stay total,
so no exception escapes the handler boundary. -/
theorem C2_extraction_failure
    (u msg uuidHex : String) (q : Option String)
    (extract : String → Except String ExtractInfo)
    (dl : YdlOpts → String → Except String DownloadResult)
    (hne : pyStrip u ≠ "")
    (hex : extract (pyStrip u) = Except.error msg)
    (hdl : dl (downloadOpts (q.getD "720")
        (joinPath DOWNLOAD_FOLDER ("allvideosaver_" ++ uuidHex))) (pyStrip u) =
      Except.error msg) :
    fetch_video_info extract (some { url := some u, quality := q }) =
      { status := 500, payload := Payload.jsonError msg, cleanup := none } ∧
    download_video dl uuidHex (some { url := some u, quality := q }) =
      { status := 500, payload := Payload.jsonError msg, cleanup := none } := by
  constructor
  · simp [fetch_video_info, hne, hex]
  · simp [download_video, hne, hdl]

/-- Concrete instance of C2: an oracle that always fails with message boom
produces 500 responses carrying boom from both handlers. -/
theorem C2_extraction_failure_witness :
    fetch_video_info (fun _ => Except.error "boom")
        (some { url := some "http://x", quality := none }) =
      { status := 500, payload := Payload.jsonError "boom", cleanup := none } ∧
    download_video (fun _ _ => Except.error "boom") "deadbeef"
        (some { url := some "http://x", quality := none }) =
      { status := 500, payload := Payload.jsonError "boom", cleanup := none } :=
  C2_extraction_failure "http://x" "boom" "deadbeef" none
    (fun _ => Except.error "boom") (fun _ _ => Except.error "boom")
    (by decide) rfl rfl

/-- Claim C7: on a successful download the response is a 200 file attachment
whose MIME type is audio/mpeg exactly when the quality token is audio and
video/mp4 otherwise, whose download name is the sanitized title plus the
extension (with the quality suffix for video), and whose served path for
audio is the prepared path with its extension replaced by .mp3. -/
theorem C7_download_success
    (dl : YdlOpts → String → Except String DownloadResult)
    (uuidHex u : String) (q : Option String) (res : DownloadResult)
    (hne : pyStrip u ≠ "")
    (hok : dl (downloadOpts (q.getD "720")
        (joinPath DOWNLOAD_FOLDER ("allvideosaver_" ++ uuidHex))) (pyStrip u) =
      Except.ok res) :
    (download_video dl uuidHex (some { url := some u, quality := q })).status = 200 ∧
    ((download_video dl uuidHex (some { url := some u, quality := q })).payload.mimeOf
        = some "audio/mpeg" ↔ q.getD "720" = "audio") ∧
    (q.getD "720" = "audio" →
      (download_video dl uuidHex (some { url := some u, quality := q })).payload.nameOf
          = some (sanitize_filename res.title ++ ".mp3") ∧
      (download_video dl uuidHex (some { url := some u, quality := q })).payload.pathOf
          = some (beforeLastDot res.preparedFilename ++ ".mp3")) ∧
    (q.getD "720" ≠ "audio" →
      (download_video dl uuidHex (some { url := some u, quality := q })).payload.mimeOf
          = some "video/mp4" ∧
      (download_video dl uuidHex (some { url := some u, quality := q })).payload.nameOf
          = some (sanitize_filename res.title ++ "_" ++ q.getD "720" ++ "p.mp4") ∧
      (download_video dl uuidHex (some { url := some u, quality := q })).payload.pathOf
          = some res.preparedFilename) := by
  by_cases hq : q.getD "720" = "audio"
  · rw [hq] at hok
    simp [download_video, hne, hok, hq, Payload.mimeOf, Payload.nameOf, Payload.pathOf]
  · simp [download_video, hne, hok, hq, Payload.mimeOf, Payload.nameOf, Payload.pathOf]

/-- Concrete instance of C7: an audio-quality download of a title with a
colon is served as audio/mpeg under the sanitized mp3 name, from the mp3
path obtained by swapping the prepared extension. -/
theorem C7_download_success_witness :
    (download_video (fun _ _ => Except.ok
        { title := "My:Title", preparedFilename := "D:\\AllVideoSaverTemp\\allvideosaver_x.webm" })
      "ab" (some { url := some "http://x", quality := some "audio" })).status = 200 ∧
    (download_video (fun _ _ => Except.ok
        { title := "My:Title", preparedFilename := "D:\\AllVideoSaverTemp\\allvideosaver_x.webm" })
      "ab" (some { url := some "http://x", quality := some "audio" })).payload.nameOf
        = some (sanitize_filename "My:Title" ++ ".mp3") ∧
    (download_video (fun _ _ => Except.ok
        { title := "My:Title", preparedFilename := "D:\\AllVideoSaverTemp\\allvideosaver_x.webm" })
      "ab" (some { url := some "http://x", quality := some "audio" })).payload.pathOf
        = some (beforeLastDot "D:\\AllVideoSaverTemp\\allvideosaver_x.webm" ++ ".mp3") :=
  ⟨(C7_download_success _ "ab" "http://x" (some "audio") _ (by decide) rfl).1,
   ((C7_download_success _ "ab" "http://x" (some "audio") _ (by decide) rfl).2.2.1 rfl).1,
   ((C7_download_success _ "ab" "http://x" (some "audio") _ (by decide) rfl).2.2.1 rfl).2⟩

/-- Claim C8: every successful download schedules a cleanup of the served
file with the fixed 60-second delay (recorded off the response data, not
blocking it), and the cleanup body converts any deletion failure into a
single warning log: it never propagates an error, never retries, and a
missing file produces no attempt at all. -/
theorem C8_delayed_cleanup
    (env : CleanupEnv) (path : String)
    (dl : YdlOpts → String → Except String DownloadResult)
    (uuidHex u : String) (q : Option String) (res : DownloadResult)
    (hne : pyStrip u ≠ "")
    (hok : dl (downloadOpts (q.getD "720")
        (joinPath DOWNLOAD_FOLDER ("allvideosaver_" ++ uuidHex))) (pyStrip u) =
      Except.ok res) :
    (download_video dl uuidHex (some { url := some u, quality := q })).cleanup ≠ none ∧
    (∀ p d, (download_video dl uuidHex (some { url := some u, quality := q })).cleanup
        = some (p, d) →
      d = 60 ∧ (download_video dl uuidHex (some { url := some u, quality := q })).payload.pathOf
        = some p) ∧
    (cleanupAttempt env path = Except.ok () → cleanupRun env path = []) ∧
    (∀ e, cleanupAttempt env path = Except.error e →
      cleanupRun env path = [cleanupWarning path e]) ∧
    (env.pathExists path = false → cleanupRun env path = []) := by
  refine ⟨?_, ?_, ?_, ?_, ?_⟩
  · by_cases hq : q.getD "720" = "audio"
    · rw [hq] at hok
      simp [download_video, hne, hok, hq, delayed_cleanup]
    · simp [download_video, hne, hok, hq, delayed_cleanup]
  · intro p d hpd
    by_cases hq : q.getD "720" = "audio"
    · rw [hq] at hok
      simp [download_video, hne, hok, hq, delayed_cleanup, Payload.pathOf] at hpd ⊢
      exact ⟨hpd.2.symm, hpd.1⟩
    · simp [download_video, hne, hok, hq, delayed_cleanup, Payload.pathOf] at hpd ⊢
      exact ⟨hpd.2.symm, hpd.1⟩
  · intro h
    simp [cleanupRun, h]
  · intro e h
    simp [cleanupRun, h]
  · intro h
    simp [cleanupRun, cleanupAttempt, h]

/-- Concrete instance of C8: a successful audio download schedules a
cleanup, and a locked file turns into exactly one warning log from the
cleanup body. -/
theorem C8_delayed_cleanup_witness :
    (download_video (fun _ _ => Except.ok
        { title := "T", preparedFilename := "D:\\AllVideoSaverTemp\\allvideosaver_y.mp4" })
      "cd" (some { url := some "http://x", quality := none })).cleanup ≠ none ∧
    cleanupRun { pathExists := fun _ => true, remove := fun _ => Except.error "locked" }
        "D:\\f" = [cleanupWarning "D:\\f" "locked"] :=
  ⟨(C8_delayed_cleanup
      { pathExists := fun _ => true, remove := fun _ => Except.error "locked" } "D:\\f"
      (fun _ _ => Except.ok
        { title := "T", preparedFilename := "D:\\AllVideoSaverTemp\\allvideosaver_y.mp4" })
      "cd" "http://x" none _ (by decide) rfl).1,
   (C8_delayed_cleanup
      { pathExists := fun _ => true, remove := fun _ => Except.error "locked" } "D:\\f"
      (fun _ _ => Except.ok
        { title := "T", preparedFilename := "D:\\AllVideoSaverTemp\\allvideosaver_y.mp4" })
      "cd" "http://x" none _ (by decide) rfl).2.2.2.1 "locked" rfl⟩

/-- Claim C9: the temp file name is the fixed prefix followed by the
request's fresh hex token, so two requests with distinct tokens get distinct
file names, distinct full paths in the shared download folder, and distinct
output templates handed to the extraction library. -/
theorem C9_distinct_filenames (h₁ h₂ : String) (hne : h₁ ≠ h₂) :
    "allvideosaver_" ++ h₁ ≠ "allvideosaver_" ++ h₂ ∧
    joinPath DOWNLOAD_FOLDER ("allvideosaver_" ++ h₁) ≠
      joinPath DOWNLOAD_FOLDER ("allvideosaver_" ++ h₂) ∧
    (∀ quality,
      (downloadOpts quality (joinPath DOWNLOAD_FOLDER ("allvideosaver_" ++ h₁))).outtmpl ≠
      (downloadOpts quality (joinPath DOWNLOAD_FOLDER ("allvideosaver_" ++ h₂))).outtmpl) := by
  have hname : "allvideosaver_" ++ h₁ ≠ "allvideosaver_" ++ h₂ :=
    fun h => hne (string_append_left_cancel h)
  have hpath : joinPath DOWNLOAD_FOLDER ("allvideosaver_" ++ h₁) ≠
      joinPath DOWNLOAD_FOLDER ("allvideosaver_" ++ h₂) :=
    fun h => hname (string_append_left_cancel h)
  refine ⟨hname, hpath, fun quality h => ?_⟩
  exact hpath (string_append_right_cancel h)

/-- Concrete instance of C9: two distinct hex tokens give distinct names,
paths and output templates. -/
theorem C9_distinct_filenames_witness :
    "allvideosaver_" ++ "aa" ≠ "allvideosaver_" ++ "bb" ∧
    joinPath DOWNLOAD_FOLDER ("allvideosaver_" ++ "aa") ≠
      joinPath DOWNLOAD_FOLDER ("allvideosaver_" ++ "bb") ∧
    (∀ quality,
      (downloadOpts quality (joinPath DOWNLOAD_FOLDER ("allvideosaver_" ++ "aa"))).outtmpl ≠
      (downloadOpts quality (joinPath DOWNLOAD_FOLDER ("allvideosaver_" ++ "bb"))).outtmpl) :=
  C9_distinct_filenames "aa" "bb" (by decide)

/-- Claim C10: a download request without a quality field behaves exactly as
one with quality 720: the whole handler run is identical for every oracle,
the options handed to the extraction library carry the 720 height-bounded
selector and no postprocessor, and a successful run is served as video/mp4
under a name ending in the 720p mp4 suffix. -/
theorem C10_default_quality
    (dl : YdlOpts → String → Except String DownloadResult) (uuidHex u : String) :
    download_video dl uuidHex (some { url := some u, quality := none }) =
      download_video dl uuidHex (some { url := some u, quality := some "720" }) ∧
    (downloadOpts ((none : Option String).getD "720")
        (joinPath DOWNLOAD_FOLDER ("allvideosaver_" ++ uuidHex))).format =
      "best[height<=720]/best" ∧
    (downloadOpts ((none : Option String).getD "720")
        (joinPath DOWNLOAD_FOLDER ("allvideosaver_" ++ uuidHex))).postprocessors = [] ∧
    (∀ res, pyStrip u ≠ "" →
      dl (downloadOpts "720" (joinPath DOWNLOAD_FOLDER ("allvideosaver_" ++ uuidHex)))
          (pyStrip u) = Except.ok res →
      (download_video dl uuidHex (some { url := some u, quality := none })).payload =
        Payload.fileAttachment res.preparedFilename
          (sanitize_filename res.title ++ "_720p.mp4") "video/mp4") := by
  refine ⟨rfl, rfl, rfl, ?_⟩
  intro res hne hok
  have hname : sanitize_filename res.title ++ "_" ++ "720" ++ "p.mp4" =
      sanitize_filename res.title ++ "_720p.mp4" := by
    rw [String.append_assoc, String.append_assoc]
    exact congrArg (fun t => sanitize_filename res.title ++ t) (by decide)
  simp [download_video, hne, hok, ← hname]

/-- Concrete instance of C10: omitting quality and passing 720 give the same
run, served as video/mp4 with the 720p suffix. -/
theorem C10_default_quality_witness :
    download_video (fun _ _ => Except.ok { title := "T", preparedFilename := "D:\\x\\f.mp4" })
        "cd" (some { url := some "http://x", quality := none }) =
      download_video (fun _ _ => Except.ok { title := "T", preparedFilename := "D:\\x\\f.mp4" })
        "cd" (some { url := some "http://x", quality := some "720" }) ∧
    (download_video (fun _ _ => Except.ok { title := "T", preparedFilename := "D:\\x\\f.mp4" })
        "cd" (some { url := some "http://x", quality := none })).payload =
      Payload.fileAttachment "D:\\x\\f.mp4" (sanitize_filename "T" ++ "_720p.mp4") "video/mp4" :=
  ⟨(C10_default_quality (fun _ _ => Except.ok { title := "T", preparedFilename := "D:\\x\\f.mp4" })
      "cd" "http://x").1,
   (C10_default_quality (fun _ _ => Except.ok { title := "T", preparedFilename := "D:\\x\\f.mp4" })
      "cd" "http://x").2.2.2 { title := "T", preparedFilename := "D:\\x\\f.mp4" }
      (by decide) rfl⟩

end AllVideoSaver
